import Mathlib

/-!
Verification of the stock-alert evaluation engine (a Cloudflare Worker that
watches stock symbols and sends Discord notifications on price conditions).

The embedding mirrors `src/utils/send-discord.ts` and `src/index.ts`:
  * `parsePriceLevels` — the rule-string parser,
  * `tryAlert` / `runConds` — the per-condition edge-triggered, cooldown-gated
    decision step,
  * `evalSymbol` / `runSymbols` / `runAlertsOnce` — the per-symbol evaluation
    and the whole on-demand run.

Modelling conventions: JavaScript numbers are embedded as exact rationals
(`ℚ`), timestamps as `ℤ` (epoch milliseconds).  JavaScript objects used as
string-keyed maps (`lastSentAt`, `lastCond`, the snapshot batch, the state
store) are association lists with insertion-order-preserving overwrite,
matching JS object key semantics.  The network collaborators are inputs: the
snapshot batch is passed in (the real code fetches it once per cycle), and the
Notifier is a boolean oracle `notifier symbol key` telling whether a given
delivery attempt succeeds (`false` models `sendDiscord` throwing, i.e. an
empty webhook URL or a non-success HTTP status).  `Number(string)` is
modelled for the decimal grammar (sign, digits, fraction, exponent,
`Infinity`); non-numeric strings map to `none` (JS `NaN`), and `Infinity`
maps to `none` as well since the source only keeps finite values
(`Number.isFinite`).
-/

namespace StockAlerts

/-! ### String helpers (JS `split` / `trim` / `toUpperCase` on `List Char`) -/

/-- JS `String.prototype.split` with a single-character separator:
`"".split(s)` is `[""]`, separators at the ends produce empty pieces. -/
def splitOnChar (sep : Char) : List Char → List (List Char)
  | [] => [[]]
  | c :: rest =>
    let r := splitOnChar sep rest
    if c = sep then [] :: r
    else
      match r with
      | h :: t => (c :: h) :: t
      | [] => [[c]]

def isWs (c : Char) : Bool :=
  c = ' ' || c = '\t' || c = '\n' || c = '\r'

/-- JS `String.prototype.trim` (ASCII whitespace). -/
def trimChars (cs : List Char) : List Char :=
  ((cs.dropWhile isWs).reverse.dropWhile isWs).reverse

def jsTrim (s : String) : String := String.mk (trimChars s.data)

def jsToUpper (s : String) : String := String.mk (s.data.map Char.toUpper)

def jsSplit (sep : Char) (s : String) : List String :=
  (splitOnChar sep s.data).map String.mk

/-! ### JS `Number(string)` on the decimal grammar -/

def digitsToNat (cs : List Char) : Nat :=
  cs.foldl (fun n c => n * 10 + (c.toNat - 48)) 0

def allDigits (cs : List Char) : Bool := cs.all Char.isDigit

def qpow10 (e : Int) : ℚ :=
  if 0 ≤ e then (10 : ℚ) ^ e.toNat else 1 / (10 : ℚ) ^ (-e).toNat

/-- Mantissa: `digits`, `digits.digits`, `.digits` or `digits.` (at least one
digit overall); anything else is `NaN`. -/
def parseMantissa (cs : List Char) : Option ℚ :=
  match splitOnChar '.' cs with
  | [i] =>
    if i ≠ [] && allDigits i then some (digitsToNat i) else none
  | [i, f] =>
    if (i ≠ [] || f ≠ []) && allDigits i && allDigits f then
      some ((digitsToNat i : ℚ) + (digitsToNat f : ℚ) / (10 : ℚ) ^ f.length)
    else none
  | _ => none

def parseExp : List Char → Option Int
  | '+' :: ds => if ds ≠ [] && allDigits ds then some (digitsToNat ds) else none
  | '-' :: ds => if ds ≠ [] && allDigits ds then some (-(digitsToNat ds : Int)) else none
  | ds => if ds ≠ [] && allDigits ds then some (digitsToNat ds) else none

/-- Unsigned numeric body: mantissa with optional `e`/`E` exponent;
`Infinity` is recognised but non-finite, hence `none`. -/
def jsNumBody (cs : List Char) : Option ℚ :=
  if cs = "Infinity".data then none
  else
    let m := cs.takeWhile (fun c => c ≠ 'e' && c ≠ 'E')
    let rest := cs.dropWhile (fun c => c ≠ 'e' && c ≠ 'E')
    match rest with
    | [] => parseMantissa m
    | _ :: es =>
      match parseMantissa m, parseExp es with
      | some mv, some e => some (mv * qpow10 e)
      | _, _ => none

/-- JS `Number(string)` restricted to finite results: `some q` when the string
is a finite decimal numeral, `none` when `Number` yields `NaN` or `±Infinity`
(the source drops both via `Number.isFinite`). The empty/whitespace string is
`0` in JS. -/
def jsNumber (s : String) : Option ℚ :=
  let t := trimChars s.data
  if t = [] then some 0
  else
    match t with
    | '+' :: rest => jsNumBody rest
    | '-' :: rest => (jsNumBody rest).map Neg.neg
    | _ => jsNumBody t

/-! ### Association-list maps (JS object key semantics) -/

def getKey {α : Type} : List (String × α) → String → Option α
  | [], _ => none
  | (k', v) :: rest, k => if k' = k then some v else getKey rest k

/-- Overwrite-in-place insert: an existing key keeps its position (JS object
re-assignment), a new key is appended (JS insertion order). -/
def setKey {α : Type} : List (String × α) → String → α → List (String × α)
  | [], k, v => [(k, v)]
  | (k', v') :: rest, k, v =>
    if k' = k then (k, v) :: rest else (k', v') :: setKey rest k v

/-! ### Rule parser (`parsePriceLevels`) -/

structure Rule where
  below : Option ℚ := none
  above : Option ℚ := none
deriving Repr, DecidableEq

/-- One entry's `kv ("," kv)*` clause list, folded left to right; a later
`below=`/`above=` in the same entry overwrites the earlier one; non-finite
values and unrecognised keys are skipped. -/
def parseRuleClauses (rulesRaw : String) : Rule :=
  (jsSplit ',' rulesRaw).foldl
    (fun rules kv =>
      match (jsSplit '=' kv).map jsTrim with
      | k :: v :: _ =>
        match jsNumber v with
        | none => rules
        | some num =>
          if k = "below" then { rules with below := some num }
          else if k = "above" then { rules with above := some num }
          else rules
      | _ => rules)
    {}

/-- `parsePriceLevels` from `send-discord.ts`: split on `;`, each chunk is
`SYMBOL:clauses`; blank chunks, chunks without a `:` part and blank symbols
are skipped; the whole clause record is assigned to `out[symbol]`
(a later entry for the same symbol replaces the earlier record wholesale). -/
def parsePriceLevels (input : String) : List (String × Rule) :=
  if trimChars input.data = [] then []
  else
    (jsSplit ';' input).foldl
      (fun out chunk =>
        let part := jsTrim chunk
        if part = "" then out
        else
          match jsSplit ':' part with
          | symRaw :: rulesRaw :: _ =>
            let symbol := jsToUpper (jsTrim symRaw)
            if symbol = "" || rulesRaw = "" then out
            else setKey out symbol (parseRuleClauses rulesRaw)
          | _ => out)
      []

/-! ### Data model: snapshots, persisted alert state, evaluation results -/

/-- `AlpacaSnapshot`, restricted to the fields the evaluator reads:
`latestTrade.p`, `minuteBar.c`, `prevDailyBar.c` (the unused `dailyBar` and
the timestamp strings are omitted).  `none` models an absent object. -/
structure Snapshot where
  latestTrade : Option ℚ := none
  minuteBar : Option ℚ := none
  prevDailyBar : Option ℚ := none
deriving Repr, DecidableEq

/-- `AlertState`: per condition key, last-fired epoch millis and the previous
cycle's condition value.  Missing keys read back with defaults `0` / `false`
(`?? 0`, `?? false` in the source). -/
structure AlertState where
  lastSentAt : List (String × Int) := []
  lastCond : List (String × Bool) := []
deriving Repr, DecidableEq

/-- The persisted State Store: symbol-derived key → `AlertState`. -/
abbrev Store := List (String × AlertState)

def stateKey (symbol : String) : String := "alerts:" ++ symbol

/-- Per-symbol diagnostic record (`Detail` in the source).  JS `null` and
`undefined` both collapse to `none`. -/
structure Detail where
  symbol : String
  sent : List String := []
  currentPrice : Option ℚ := none
  prevClose : Option ℚ := none
  changePct : Option ℚ := none
  rules : Option Rule := none
  note : Option String := none
deriving Repr, DecidableEq

/-! ### Condition computation -/

/-- `changePct`: defined only when `prevClose` is present and `> 0`
(JS `prevClose && prevClose > 0`, where `0` is falsy). -/
def computeChangePct (currentPrice : ℚ) (prevClose : Option ℚ) : Option ℚ :=
  match prevClose with
  | some p => if 0 < p then some ((currentPrice - p) / p * 100) else none
  | none => none

def condPctUp (changePct : Option ℚ) (pctThreshold : ℚ) : Bool :=
  match changePct with
  | some c => decide (pctThreshold ≤ c)
  | none => false

def condPctDown (changePct : Option ℚ) (pctThreshold : ℚ) : Bool :=
  match changePct with
  | some c => decide (c ≤ -pctThreshold)
  | none => false

/-- The `(key, cond)` pairs evaluated for one symbol, in source order:
`price_below` and `price_above` only when the corresponding rule threshold is
a number, then always `pct_up` and `pct_down`. -/
def condList (rules : Rule) (currentPrice : ℚ) (changePct : Option ℚ)
    (pctThreshold : ℚ) : List (String × Bool) :=
  (match rules.below with
   | some b => [("price_below", decide (currentPrice ≤ b))]
   | none => []) ++
  (match rules.above with
   | some a => [("price_above", decide (a ≤ currentPrice))]
   | none => []) ++
  [("pct_up", condPctUp changePct pctThreshold),
   ("pct_down", condPctDown changePct pctThreshold)]

/-! ### The per-condition decision step (`tryAlert`) -/

/-- One `tryAlert` call.  `ok` is the Notifier oracle for this delivery
attempt; `Except.error ()` models `sendDiscord` throwing (in which case the
source performs no state assignment for this condition — the exception
propagates to the symbol-level catch).  The returned `Bool` is whether a
notification fired (`sent++` / `sentKeys.push`).  Force mode fires on `cond`
alone and never touches state. -/
def tryAlert (force ok : Bool) (cooldownMs now : Int) (st : AlertState)
    (key : String) (cond : Bool) : Except Unit (AlertState × Bool) :=
  if force then
    if cond then
      if ok then Except.ok (st, true) else Except.error ()
    else Except.ok (st, false)
  else
    let prev := (getKey st.lastCond key).getD false
    let last := (getKey st.lastSentAt key).getD 0
    if cond && !prev && decide (cooldownMs ≤ now - last) then
      if ok then
        Except.ok
          ({ st with
              lastSentAt := setKey st.lastSentAt key now,
              lastCond := setKey st.lastCond key cond }, true)
      else Except.error ()
    else
      Except.ok ({ st with lastCond := setKey st.lastCond key cond }, false)

/-- Outcome of running a symbol's condition sequence: the in-memory state
after the last completed condition, the keys pushed to `sentKeys`, and
whether all conditions completed without a delivery exception. -/
structure CondOutcome where
  state : AlertState
  sentKeys : List String
  success : Bool
deriving Repr, DecidableEq

/-- The sequence of `await tryAlert(...)` calls for one symbol: stops at the
first delivery exception; keys pushed before the exception are kept (the JS
`sentKeys` array was already mutated). -/
def runConds (force : Bool) (ok : String → Bool) (cooldownMs now : Int) :
    List (String × Bool) → AlertState → CondOutcome
  | [], st => ⟨st, [], true⟩
  | (key, cond) :: rest, st =>
    match tryAlert force (ok key) cooldownMs now st key cond with
    | Except.error _ => ⟨st, [], false⟩
    | Except.ok (st', fired) =>
      let r := runConds force ok cooldownMs now rest st'
      ⟨r.state, (if fired then [key] else []) ++ r.sentKeys, r.success⟩

/-! ### Per-symbol evaluation and the whole run -/

/-- The body of `runAlertsOnce`'s per-symbol loop, including its
`try`/`catch`: returns the store after this symbol (written only on a fully
successful normal-mode pass) and the diagnostic `Detail`. -/
def evalSymbol (force : Bool) (notifier : String → String → Bool)
    (pctThreshold : ℚ) (cooldownMs now : Int)
    (priceLevels : List (String × Rule)) (snapshots : List (String × Snapshot))
    (store : Store) (symbol : String) : Store × Detail :=
  match getKey snapshots symbol with
  | none => (store, { symbol := symbol, note := some "no snapshot" })
  | some snap =>
    let currentPriceOpt :=
      match snap.latestTrade with
      | some p => some p
      | none => snap.minuteBar
    match currentPriceOpt with
    | none =>
      (store,
       { symbol := symbol, prevClose := snap.prevDailyBar,
         note := some "no current price" })
    | some currentPrice =>
      let changePct := computeChangePct currentPrice snap.prevDailyBar
      let st0 := (getKey store (stateKey symbol)).getD {}
      let rules := (getKey priceLevels symbol).getD {}
      let r := runConds force (notifier symbol) cooldownMs now
        (condList rules currentPrice changePct pctThreshold) st0
      let detail : Detail :=
        { symbol := symbol, sent := r.sentKeys,
          currentPrice := some currentPrice, prevClose := snap.prevDailyBar,
          changePct := changePct, rules := some rules,
          note := if r.success then none else some "error" }
      if r.success then
        (if force then store else setKey store (stateKey symbol) r.state, detail)
      else
        (store, detail)

/-- The `for (const symbol of symbols)` loop: threads the store and collects
one `Detail` per symbol, failures included. -/
def runSymbols (force : Bool) (notifier : String → String → Bool)
    (pctThreshold : ℚ) (cooldownMs now : Int)
    (priceLevels : List (String × Rule))
    (snapshots : List (String × Snapshot)) :
    List String → Store → Store × List Detail
  | [], store => (store, [])
  | s :: rest, store =>
    let r := evalSymbol force notifier pctThreshold cooldownMs now
      priceLevels snapshots store s
    let r' := runSymbols force notifier pctThreshold cooldownMs now
      priceLevels snapshots rest r.1
    (r'.1, r.2 :: r'.2)

/-- `opts.symbols.map(s => String(s).trim().toUpperCase()).filter(Boolean)` /
the watchlist `split(",")` pipeline. -/
def normalizeSymbols (l : List String) : List String :=
  (l.map (fun s => jsToUpper (jsTrim s))).filter (fun s => s ≠ "")

def watchlistSymbols (watchlist : Option String) : List String :=
  normalizeSymbols (jsSplit ',' (watchlist.getD "AAPL,TSLA"))

/-- Symbol selection: `opts?.symbols?.length ? override-pipeline : watchlist`
— an empty override array has length `0`, which is falsy in JS, so it falls
back to the watchlist. -/
def selectSymbols (watchlist : Option String)
    (override : Option (List String)) : List String :=
  match override with
  | some l => if l.length ≠ 0 then normalizeSymbols l else watchlistSymbols watchlist
  | none => watchlistSymbols watchlist

/-- Configuration values consumed by `runAlertsOnce`.  `pctThreshold` and
`cooldownMs` stand for `Number(env.PCT_THRESHOLD ?? "10")` and
`Number(env.ALERT_COOLDOWN_MINUTES ?? "30") * 60 * 1000`, already parsed. -/
structure Config where
  watchlist : Option String := none
  priceLevels : Option String := none
  pctThreshold : ℚ := 10
  cooldownMs : Int := 1800000
deriving Repr

def totalSent (ds : List Detail) : Nat :=
  (ds.map (fun d => d.sent.length)).sum

/-- The summary returned by `runAlertsOnce`, plus the store after the run
(the persisted effect; the source writes it through `STOCK_STATE.put`). -/
structure RunResult where
  symbols : Nat
  sent : Nat
  details : List Detail
  store : Store
deriving Repr, DecidableEq

/-- `runAlertsOnce(env, opts)`: select symbols, parse the rule string, then
evaluate every symbol sequentially against the snapshot batch.  `sent` counts
every successful delivery (each one pushes exactly one key). -/
def runAlertsOnce (cfg : Config) (force : Bool) (override : Option (List String))
    (snapshots : List (String × Snapshot)) (store : Store)
    (notifier : String → String → Bool) (now : Int) : RunResult :=
  let symbols := selectSymbols cfg.watchlist override
  let priceLevels := parsePriceLevels (cfg.priceLevels.getD "")
  let r := runSymbols force notifier cfg.pctThreshold cfg.cooldownMs now
    priceLevels snapshots symbols store
  { symbols := symbols.length, sent := totalSent r.2, details := r.2, store := r.1 }

/-- Multi-cycle driver for a single (symbol, condition) pair in normal mode:
each element of the list is one evaluation cycle's `(now, cond)`; the state
is threaded exactly as persist-then-reload does between normal cycles.
Returns `none` if a delivery attempt failed, otherwise the final state and
whether any cycle fired a notification. -/
def runCondCycles (ok : Bool) (cooldownMs : Int) (key : String) :
    List (Int × Bool) → AlertState → Option (AlertState × Bool)
  | [], st => some (st, false)
  | (now, cond) :: rest, st =>
    match tryAlert false ok cooldownMs now st key cond with
    | Except.error _ => none
    | Except.ok (st', fired) =>
      match runCondCycles ok cooldownMs key rest st' with
      | none => none
      | some (st'', f) => some (st'', fired || f)

/-! ### Helper lemmas -/

theorem getKey_setKey_self {α : Type} (l : List (String × α)) (k : String) (v : α) :
    getKey (setKey l k v) k = some v := by
  induction l with
  | nil => simp [setKey, getKey]
  | cons h t ih =>
    obtain ⟨k', v'⟩ := h
    by_cases hk : k' = k
    · simp [setKey, getKey, hk]
    · simp [setKey, getKey, hk, ih]

/-! ### Claim theorems -/

/-- C3 (counterexample): the claim says `"AAPL:below=170;AAPL:above=200"`
parses to `{AAPL: {below: 170, above: 200}}`, with a key defined only in the
earlier entry preserved.  On the code, the later entry's whole record
replaces the earlier one (`out[symbol] = rules`), so `below` is dropped. -/
theorem parse_merge_counterexample :
    getKey (parsePriceLevels "AAPL:below=170;AAPL:above=200") "AAPL" =
      some { below := none, above := some 200 } ∧
    getKey (parsePriceLevels "AAPL:below=170;AAPL:above=200") "AAPL" ≠
      some { below := some 170, above := some 200 } := by
  constructor
  · decide
  · decide

/-- C3 (amended): a symbol appearing in multiple entries has the later
entry's whole clause record replace the earlier one's — keys defined only in
earlier entries are dropped, not preserved; the claim's example yields
`{AAPL: {above: 200}}`. -/
theorem parse_entry_replacement :
    parsePriceLevels "AAPL:below=170;AAPL:above=200" =
      [("AAPL", { below := none, above := some 200 })] ∧
    ∀ (out : List (String × Rule)) (sym : String) (r : Rule),
      getKey (setKey out sym r) sym = some r := by
  exact ⟨by decide, fun out sym r => getKey_setKey_self out sym r⟩

/-- C7: the Rule Parser reference example parses as specified, and malformed
or non-finite numeric values are dropped rather than producing an error (the
embedding is a total function, so no input throws). -/
theorem parse_reference_example :
    parsePriceLevels "AAPL:below=170,above=200;TSLA:below=180" =
      [("AAPL", { below := some 170, above := some 200 }),
       ("TSLA", { below := some 180, above := none })] ∧
    parsePriceLevels "AAPL:below=Infinity,above=200;TSLA:below=oops" =
      [("AAPL", { below := none, above := some 200 }),
       ("TSLA", { below := none, above := none })] := by
  constructor
  · decide
  · decide

/-- C6: `changePct = (currentPrice − prevClose) / prevClose × 100` exactly
when `prevClose` is present and positive, absent otherwise (making both pct
conditions false); `110` against `100` gives exactly `+10`, which meets the
inclusive `≥` bound for `pct_up` at threshold `10` and not `pct_down`. -/
theorem change_pct_correct (cur p t : ℚ) :
    (0 < p → computeChangePct cur (some p) = some ((cur - p) / p * 100)) ∧
    (p ≤ 0 → computeChangePct cur (some p) = none) ∧
    computeChangePct cur none = none ∧
    condPctUp none t = false ∧
    condPctDown none t = false ∧
    computeChangePct 110 (some 100) = some 10 ∧
    condPctUp (computeChangePct 110 (some 100)) 10 = true ∧
    condPctDown (computeChangePct 110 (some 100)) 10 = false := by
  have h10 : computeChangePct 110 (some 100) = some 10 := by
    norm_num [computeChangePct]
  refine ⟨?_, ?_, rfl, rfl, rfl, h10, ?_, ?_⟩
  · intro hp
    simp [computeChangePct, hp]
  · intro hp
    simp [computeChangePct, not_lt.mpr hp]
  · rw [h10]
    simp only [condPctUp, decide_eq_true_eq]
    exact le_refl _
  · rw [h10]
    simp only [condPctDown]
    rw [decide_eq_false_iff_not]
    norm_num

/-- Witness for C6 at the spec's end-to-end numbers (`165` vs `180`) and at a
zero previous close. -/
theorem change_pct_correct_witness :
    computeChangePct 165 (some 180) = some ((165 - 180) / 180 * 100) ∧
    computeChangePct 165 (some 0) = none :=
  ⟨(change_pct_correct 165 180 10).1 (by norm_num),
   (change_pct_correct 165 0 10).2.1 (le_refl 0)⟩

/-- C8: with a positive percent threshold, `pct_up` and `pct_down` can never
both be true in the same cycle for the same symbol. -/
theorem pct_conditions_exclusive (cp : Option ℚ) (t : ℚ) (ht : 0 < t) :
    ¬(condPctUp cp t = true ∧ condPctDown cp t = true) := by
  rintro ⟨hu, hd⟩
  cases cp with
  | none => simp [condPctUp] at hu
  | some c =>
    simp only [condPctUp, decide_eq_true_eq] at hu
    simp only [condPctDown, decide_eq_true_eq] at hd
    linarith

/-- Witness for C8 at `changePct = 10`, threshold `10`. -/
theorem pct_conditions_exclusive_witness :
    (0 : ℚ) < 10 ∧
      ¬(condPctUp (some 10) 10 = true ∧ condPctDown (some 10) 10 = true) :=
  ⟨by norm_num, pct_conditions_exclusive (some 10) 10 (by norm_num)⟩

/-- C10: an on-demand run whose symbols override is the empty array behaves
exactly like a run with the override absent: the configured watchlist, split
on commas, trimmed, uppercased and with empty items removed, is evaluated. -/
theorem empty_override_fallback (cfg : Config) (force : Bool)
    (snapshots : List (String × Snapshot)) (store : Store)
    (notifier : String → String → Bool) (now : Int) :
    runAlertsOnce cfg force (some []) snapshots store notifier now =
      runAlertsOnce cfg force none snapshots store notifier now ∧
    selectSymbols cfg.watchlist (some []) =
      normalizeSymbols (jsSplit ',' ((cfg.watchlist).getD "AAPL,TSLA")) := by
  constructor
  · rfl
  · rfl

/-- In force mode a symbol's evaluation never writes the store, whatever the
snapshot, rules, prior state or delivery outcome. -/
theorem evalSymbol_force_store (notifier : String → String → Bool)
    (t : ℚ) (cd now : Int) (pl : List (String × Rule))
    (snaps : List (String × Snapshot)) (store : Store) (sym : String) :
    (evalSymbol true notifier t cd now pl snaps store sym).1 = store := by
  unfold evalSymbol
  cases getKey snaps sym with
  | none => rfl
  | some snap =>
    dsimp only
    cases (match snap.latestTrade with
           | some p => some p
           | none => snap.minuteBar) with
    | none => rfl
    | some cur =>
      dsimp only
      split
      · rfl
      · rfl

theorem runSymbols_force_store (notifier : String → String → Bool)
    (t : ℚ) (cd now : Int) (pl : List (String × Rule))
    (snaps : List (String × Snapshot)) :
    ∀ (syms : List String) (store : Store),
      (runSymbols true notifier t cd now pl snaps syms store).1 = store := by
  intro syms
  induction syms with
  | nil => intro store; rfl
  | cons s rest ih =>
    intro store
    show (runSymbols true notifier t cd now pl snaps rest
      (evalSymbol true notifier t cd now pl snaps store s).1).1 = store
    rw [ih, evalSymbol_force_store]

/-- C2: a force-mode run writes nothing to the State Store — the persisted
`AlertState` of every symbol after the run equals its value before, for all
inputs and all delivery outcomes. -/
theorem force_mode_no_store_write (cfg : Config) (override : Option (List String))
    (snapshots : List (String × Snapshot)) (store : Store)
    (notifier : String → String → Bool) (now : Int) :
    (runAlertsOnce cfg true override snapshots store notifier now).store = store ∧
    ∀ sym : String,
      getKey (runAlertsOnce cfg true override snapshots store notifier now).store sym =
        getKey store sym := by
  have h : (runAlertsOnce cfg true override snapshots store notifier now).store = store :=
    runSymbols_force_store notifier cfg.pctThreshold cfg.cooldownMs now
      (parsePriceLevels (cfg.priceLevels.getD "")) snapshots
      (selectSymbols cfg.watchlist override) store
  exact ⟨h, fun sym => by rw [h]⟩

theorem tryAlert_force_condFalse (ok : Bool) (cd now : Int) (st : AlertState)
    (key : String) : tryAlert true ok cd now st key false = Except.ok (st, false) := rfl

theorem tryAlert_force_fire (cd now : Int) (st : AlertState) (key : String) :
    tryAlert true true cd now st key true = Except.ok (st, true) := rfl

theorem tryAlert_force_fail (cd now : Int) (st : AlertState) (key : String) :
    tryAlert true false cd now st key true = Except.error () := rfl

/-- Force-mode `tryAlert` never reads the state, so the keys pushed and the
success flag of a condition sequence do not depend on the starting state. -/
theorem runConds_force_outcome (ok : String → Bool) (cd now : Int)
    (conds : List (String × Bool)) :
    ∀ st₁ st₂ : AlertState,
      (runConds true ok cd now conds st₁).sentKeys =
        (runConds true ok cd now conds st₂).sentKeys ∧
      (runConds true ok cd now conds st₁).success =
        (runConds true ok cd now conds st₂).success := by
  induction conds with
  | nil => intro st₁ st₂; exact ⟨rfl, rfl⟩
  | cons kc rest ih =>
    intro st₁ st₂
    obtain ⟨key, cond⟩ := kc
    cases cond with
    | false =>
      simp only [runConds, tryAlert_force_condFalse]
      exact ⟨(ih st₁ st₂).1, (ih st₁ st₂).2⟩
    | true =>
      cases hok : ok key with
      | false =>
        simp only [runConds, hok, tryAlert_force_fail]
        exact ⟨trivial, trivial⟩
      | true =>
        simp only [runConds, hok, tryAlert_force_fire]
        exact ⟨congrArg (List.cons key) (ih st₁ st₂).1, (ih st₁ st₂).2⟩

/-- In force mode a symbol's diagnostic record does not depend on the stored
state. -/
theorem evalSymbol_force_detail (notifier : String → String → Bool)
    (t : ℚ) (cd now : Int) (pl : List (String × Rule))
    (snaps : List (String × Snapshot)) (store₁ store₂ : Store) (sym : String) :
    (evalSymbol true notifier t cd now pl snaps store₁ sym).2 =
      (evalSymbol true notifier t cd now pl snaps store₂ sym).2 := by
  unfold evalSymbol
  cases getKey snaps sym with
  | none => rfl
  | some snap =>
    dsimp only
    cases (match snap.latestTrade with
           | some p => some p
           | none => snap.minuteBar) with
    | none => rfl
    | some cur =>
      dsimp only
      have h := runConds_force_outcome (notifier sym) cd now
        (condList ((getKey pl sym).getD {}) cur
          (computeChangePct cur snap.prevDailyBar) t)
        ((getKey store₁ (stateKey sym)).getD {})
        ((getKey store₂ (stateKey sym)).getD {})
      rw [apply_ite Prod.snd, apply_ite Prod.snd]
      dsimp only
      rw [h.1, h.2]

theorem runSymbols_force_details (notifier : String → String → Bool)
    (t : ℚ) (cd now : Int) (pl : List (String × Rule))
    (snaps : List (String × Snapshot)) :
    ∀ (syms : List String) (store₁ store₂ : Store),
      (runSymbols true notifier t cd now pl snaps syms store₁).2 =
        (runSymbols true notifier t cd now pl snaps syms store₂).2 := by
  intro syms
  induction syms with
  | nil => intro store₁ store₂; rfl
  | cons s rest ih =>
    intro store₁ store₂
    show (evalSymbol true notifier t cd now pl snaps store₁ s).2 ::
        (runSymbols true notifier t cd now pl snaps rest
          (evalSymbol true notifier t cd now pl snaps store₁ s).1).2 =
      (evalSymbol true notifier t cd now pl snaps store₂ s).2 ::
        (runSymbols true notifier t cd now pl snaps rest
          (evalSymbol true notifier t cd now pl snaps store₂ s).1).2
    rw [evalSymbol_force_detail notifier t cd now pl snaps store₁ store₂ s, ih]

/-- C9: two force-mode runs that differ only in the contents of the State
Store produce identical summaries — the same notifications are sent for the
same (symbol, condition) pairs. -/
theorem force_mode_state_noninterference (cfg : Config)
    (override : Option (List String)) (snapshots : List (String × Snapshot))
    (notifier : String → String → Bool) (now : Int) (store₁ store₂ : Store) :
    (runAlertsOnce cfg true override snapshots store₁ notifier now).details =
      (runAlertsOnce cfg true override snapshots store₂ notifier now).details ∧
    (runAlertsOnce cfg true override snapshots store₁ notifier now).sent =
      (runAlertsOnce cfg true override snapshots store₂ notifier now).sent ∧
    (runAlertsOnce cfg true override snapshots store₁ notifier now).symbols =
      (runAlertsOnce cfg true override snapshots store₂ notifier now).symbols := by
  have h := runSymbols_force_details notifier cfg.pctThreshold cfg.cooldownMs now
    (parsePriceLevels (cfg.priceLevels.getD "")) snapshots
    (selectSymbols cfg.watchlist override) store₁ store₂
  refine ⟨h, ?_, rfl⟩
  show totalSent (runSymbols true notifier cfg.pctThreshold cfg.cooldownMs now
      (parsePriceLevels (cfg.priceLevels.getD "")) snapshots
      (selectSymbols cfg.watchlist override) store₁).2 = _
  rw [h]
  rfl

/-- C4: a symbol absent from the snapshot batch stops with a `"no snapshot"`
note; a symbol whose snapshot has neither a latest trade price nor a minute
bar close stops with `"no current price"`.  In both cases nothing is sent and
the store is returned unchanged. -/
theorem no_price_skip (force : Bool) (notifier : String → String → Bool)
    (t : ℚ) (cd now : Int) (pl : List (String × Rule))
    (snaps : List (String × Snapshot)) (store : Store) (sym : String) :
    (getKey snaps sym = none →
      evalSymbol force notifier t cd now pl snaps store sym =
        (store, { symbol := sym, note := some "no snapshot" })) ∧
    (∀ snap, getKey snaps sym = some snap → snap.latestTrade = none →
      snap.minuteBar = none →
      evalSymbol force notifier t cd now pl snaps store sym =
        (store, { symbol := sym, prevClose := snap.prevDailyBar,
                  note := some "no current price" })) := by
  constructor
  · intro h
    unfold evalSymbol
    rw [h]
  · intro snap h h1 h2
    unfold evalSymbol
    rw [h]
    dsimp only
    rw [h1, h2]

/-- Witness for C4: an empty snapshot batch, and a snapshot holding only a
previous daily close. -/
theorem no_price_skip_witness :
    evalSymbol false (fun _ _ => true) 10 1800000 0 [] [] [] "AAPL" =
      ([], { symbol := "AAPL", note := some "no snapshot" }) ∧
    evalSymbol false (fun _ _ => true) 10 1800000 0 []
        [("AAPL", { prevDailyBar := some 100 })] [] "AAPL" =
      ([], { symbol := "AAPL", prevClose := some 100,
             note := some "no current price" }) :=
  ⟨(no_price_skip false (fun _ _ => true) 10 1800000 0 [] [] [] "AAPL").1 rfl,
   (no_price_skip false (fun _ _ => true) 10 1800000 0 []
      [("AAPL", { prevDailyBar := some 100 })] [] "AAPL").2
      { prevDailyBar := some 100 } rfl rfl rfl⟩

theorem evalSymbol_detail_symbol (force : Bool) (notifier : String → String → Bool)
    (t : ℚ) (cd now : Int) (pl : List (String × Rule))
    (snaps : List (String × Snapshot)) (store : Store) (sym : String) :
    (evalSymbol force notifier t cd now pl snaps store sym).2.symbol = sym := by
  unfold evalSymbol
  cases getKey snaps sym with
  | none => rfl
  | some snap =>
    dsimp only
    cases (match snap.latestTrade with
           | some p => some p
           | none => snap.minuteBar) with
    | none => rfl
    | some cur =>
      dsimp only
      split
      · rfl
      · rfl

/-- C5: a delivery exception while processing one condition of a symbol in a
normal run leaves that symbol's stored state unwritten (in-memory mutations
from earlier conditions of the cycle are discarded with it) and records the
`"error"` note; conversely, an `"error"` note can only coexist with an
unchanged store.  Every symbol of the cycle contributes its own detail
record, so remaining symbols are still processed after a failure. -/
theorem delivery_failure_isolation (notifier : String → String → Bool)
    (t : ℚ) (cd now : Int) (pl : List (String × Rule))
    (snaps : List (String × Snapshot)) (store : Store) (sym : String)
    (herr : (evalSymbol false notifier t cd now pl snaps store sym).2.note =
      some "error") :
    (evalSymbol false notifier t cd now pl snaps store sym).1 = store ∧
    ∀ (syms : List String) (st : Store),
      (runSymbols false notifier t cd now pl snaps syms st).2.map Detail.symbol =
        syms := by
  constructor
  · unfold evalSymbol at herr ⊢
    cases hg : getKey snaps sym with
    | none => rfl
    | some snap =>
      rw [hg] at herr
      dsimp only at herr ⊢
      cases hc : (match snap.latestTrade with
                  | some p => some p
                  | none => snap.minuteBar) with
      | none => rfl
      | some cur =>
        rw [hc] at herr
        dsimp only at herr ⊢
        cases hs : (runConds false (notifier sym) cd now
            (condList ((getKey pl sym).getD {}) cur
              (computeChangePct cur snap.prevDailyBar) t)
            ((getKey store (stateKey sym)).getD {})).success with
        | true =>
          rw [hs] at herr
          simp at herr
        | false => rfl
  · intro syms
    induction syms with
    | nil => intro st; rfl
    | cons s rest ih =>
      intro st
      show (evalSymbol false notifier t cd now pl snaps st s).2.symbol ::
          (runSymbols false notifier t cd now pl snaps rest
            (evalSymbol false notifier t cd now pl snaps st s).1).2.map Detail.symbol =
        s :: rest
      rw [evalSymbol_detail_symbol, ih]

/-- Witness for C5: the Notifier always throws; `price_below` is true with a
fresh state and an elapsed cooldown, so delivery is attempted and fails — the
note is `"error"` and the store stays empty. -/
theorem delivery_failure_isolation_witness :
    (evalSymbol false (fun _ _ => false) 10 1800000 2000000
        [("AAPL", { below := some 170 })]
        [("AAPL", { latestTrade := some 165 })] [] "AAPL").2.note =
      some "error" ∧
    (evalSymbol false (fun _ _ => false) 10 1800000 2000000
        [("AAPL", { below := some 170 })]
        [("AAPL", { latestTrade := some 165 })] [] "AAPL").1 = [] :=
  ⟨by decide,
   (delivery_failure_isolation (fun _ _ => false) 10 1800000 2000000
      [("AAPL", { below := some 170 })]
      [("AAPL", { latestTrade := some 165 })] [] "AAPL" (by decide)).1⟩

/-- In the `MET` state (`lastCond` true) a still-true condition never fires:
the only effect is re-writing `lastCond := true`. -/
theorem tryAlert_met (ok : Bool) (cd now : Int) (key : String) (st : AlertState)
    (h : getKey st.lastCond key = some true) :
    tryAlert false ok cd now st key true =
      Except.ok ({ st with lastCond := setKey st.lastCond key true }, false) := by
  unfold tryAlert
  simp [h]

/-- A rising edge inside the cooldown window is suppressed: no notification,
`lastSentAt` untouched, but `lastCond` still advances to `true`. -/
theorem tryAlert_suppressed (ok : Bool) (cd now : Int) (key : String)
    (st : AlertState)
    (hprev : (getKey st.lastCond key).getD false = false)
    (hcool : now - (getKey st.lastSentAt key).getD 0 < cd) :
    tryAlert false ok cd now st key true =
      Except.ok ({ st with lastCond := setKey st.lastCond key true }, false) := by
  unfold tryAlert
  simp [hprev, decide_eq_false (not_le.mpr hcool)]

/-- Once `lastCond` is `true`, a run of cycles in which the condition stays
continuously true never fires, whatever the timestamps (even after the
cooldown elapses). -/
theorem runCondCycles_met (ok : Bool) (cd : Int) (key : String) :
    ∀ (cycles : List (Int × Bool)), (∀ p ∈ cycles, p.2 = true) →
    ∀ st : AlertState, getKey st.lastCond key = some true →
      ∃ st', runCondCycles ok cd key cycles st = some (st', false) := by
  intro cycles
  induction cycles with
  | nil => intro _ st _; exact ⟨st, rfl⟩
  | cons p rest ih =>
    intro hall st hmet
    obtain ⟨now, cond⟩ := p
    have hc : cond = true := hall (now, cond) (List.mem_cons_self _ _)
    subst hc
    obtain ⟨st', hrec⟩ := ih (fun q hq => hall q (List.mem_cons_of_mem _ hq))
      { st with lastCond := setKey st.lastCond key true }
      (getKey_setKey_self st.lastCond key true)
    refine ⟨st', ?_⟩
    simp only [runCondCycles, tryAlert_met ok cd now key st hmet, hrec,
      Bool.false_or]

/-- C1: a rising edge (`wasMet` false, condition true) in a cycle with
`now − lastFiredAt < cooldown` sends nothing but still sets `wasMet`
(`lastCond`) to true, leaving `lastSentAt` unchanged; from then on, every
further normal cycle in which the condition remains continuously true sends
nothing either — so a notification becomes possible again only after some
cycle records the condition as false. -/
theorem edge_consumption_cooldown (ok : Bool) (cd now : Int) (key : String)
    (st : AlertState) (rest : List (Int × Bool))
    (hprev : (getKey st.lastCond key).getD false = false)
    (hcool : now - (getKey st.lastSentAt key).getD 0 < cd)
    (hrest : ∀ p ∈ rest, p.2 = true) :
    tryAlert false ok cd now st key true =
      Except.ok ({ st with lastCond := setKey st.lastCond key true }, false) ∧
    ∃ st', runCondCycles ok cd key ((now, true) :: rest) st = some (st', false) := by
  have hstep := tryAlert_suppressed ok cd now key st hprev hcool
  refine ⟨hstep, ?_⟩
  obtain ⟨st', hrec⟩ := runCondCycles_met ok cd key rest hrest
    { st with lastCond := setKey st.lastCond key true }
    (getKey_setKey_self st.lastCond key true)
  refine ⟨st', ?_⟩
  simp only [runCondCycles, hstep, hrec, Bool.false_or]

/-- Witness for C1: `price_below` last fired at time `0`, edge rises again at
time `5` with a cooldown of `10` — suppressed; at times `20` and `30` the
cooldown has elapsed but the condition has stayed true, so nothing fires. -/
theorem edge_consumption_cooldown_witness :
    ((getKey (AlertState.mk [("price_below", 0)] []).lastCond "price_below").getD
        false = false) ∧
    (5 - (getKey (AlertState.mk [("price_below", 0)] []).lastSentAt
        "price_below").getD 0 < 10) ∧
    (tryAlert false true 10 5 (AlertState.mk [("price_below", 0)] [])
        "price_below" true =
      Except.ok (AlertState.mk [("price_below", 0)] [("price_below", true)], false) ∧
    ∃ st', runCondCycles true 10 "price_below" [(5, true), (20, true), (30, true)]
        (AlertState.mk [("price_below", 0)] []) = some (st', false)) :=
  ⟨by decide, by decide,
   edge_consumption_cooldown true 10 5 "price_below"
     (AlertState.mk [("price_below", 0)] []) [(20, true), (30, true)]
     (by decide) (by decide) (by decide)⟩

end StockAlerts
